import Mathlib

/-
Shallow embedding of kakkoyun/demo-web-service (Go).

Source files embedded here:
  * models/user.go            — `User`, `UserResponse`
  * handlers/handlers.go      — `HomeHandler`, `HealthCheckHandler`, `GetUsersHandler`,
                                `CreateUserHandler`, `validateAndCreateUser`, `processUserData`,
                                `GetUserHandler`, `queryDatabase`, `jsonResponse`, `errorResponse`
  * handlers/middleware.go    — `responseWriter`, `newResponseWriter`, `WriteHeader`,
                                `LoggingMiddleware`
  * config/config.go          — `sliceEnv`, `parseSlice`, `splitAndTrim`, `splitString`
  * cmd/api/main.go           — the post-signal shutdown sequence

Modelling conventions:
  * An `http.ResponseWriter` is a `RespState`: the ordered list of status codes passed to
    `WriteHeader` on the underlying writer, the Content-Type header, and the ordered list of
    encoded bodies.  JSON encoding of the repository's response values cannot fail, so
    `jsonResponse` is total.
  * Each call to `rand.Intn n` in a handler is one oracle argument of type `Fin n`;
    the global `TestMode` flag is an explicit `Bool` argument.
  * A Go `panic` escaping a handler is a `some` fault value in `HandlerResult`.
  * `strconv.Atoi` (64-bit `int`) is `goAtoi` over unbounded `Int` with the explicit
    `int64` range check.
-/

set_option autoImplicit false

namespace DemoWebService

/-- User mirrors models/user.go: a name and an integer id. -/
structure User where
  name : String
  id : Int
deriving DecidableEq

/-- UserResponse mirrors models/user.go: status, optional message, optional single user,
optional user list.  Absent fields are the zero values, matching omitempty semantics. -/
structure UserResponse where
  status : String
  message : String
  user : Option User
  users : List User
deriving DecidableEq

/-- Body is a JSON response payload: either a `UserResponse` value or a string-to-string
map (the shape used for error responses, the home message and the health message). -/
inductive Body where
  | userResp : UserResponse → Body
  | kv : List (String × String) → Body
deriving DecidableEq

/-- RespState is the observable state of the underlying response writer for one request:
the Content-Type header, the ordered status codes passed to `WriteHeader`, and the
ordered encoded bodies. -/
structure RespState where
  contentType : Option String
  headerWrites : List Nat
  bodies : List Body
deriving DecidableEq

/-- RespState.empty is the state of a fresh, untouched response writer. -/
def RespState.empty : RespState := ⟨none, [], []⟩

/-- lastWithDefault returns the last element of a list, or the default when empty. -/
def lastWithDefault : List Nat → Nat → Nat
  | [], d => d
  | s :: rest, _ => lastWithDefault rest s

/-- statusOf is the effective HTTP status of a response: the last status explicitly
written, or 200 when none was (Go's implicit default on the first body byte). -/
def statusOf (st : RespState) : Nat :=
  lastWithDefault st.headerWrites 200

/-- jsonResponse mirrors handlers.jsonResponse: set Content-Type, write the status
header, encode the payload.  Encoding of the repository's values cannot fail. -/
def jsonResponse (st : RespState) (status : Nat) (data : Body) : RespState :=
  ⟨some "application/json", st.headerWrites ++ [status], st.bodies ++ [data]⟩

/-- errorResponse mirrors handlers.errorResponse: a JSON body with fields
status = error and message. -/
def errorResponse (st : RespState) (status : Nat) (message : String) : RespState :=
  jsonResponse st status (Body.kv [("status", "error"), ("message", message)])

/-- Request is the part of `*http.Request` the embedded handlers read. -/
structure Request where
  method : String
  path : String
  pathValueId : String
  contentLength : Nat
  body : String
  remoteAddr : String
  userAgent : String
deriving DecidableEq

/-- digitVal converts a decimal digit character to its value. -/
def digitVal (c : Char) : Option Nat :=
  if c.isDigit then some (c.toNat - 48) else none

/-- digitsToNat folds a digit string into a `Nat`, failing on any non-digit. -/
def digitsToNat (cs : List Char) : Option Nat :=
  cs.foldl
    (fun acc c =>
      match acc, digitVal c with
      | some n, some d => some (n * 10 + d)
      | _, _ => none)
    (some 0)

/-- goAtoi embeds `strconv.Atoi` on a 64-bit platform: optional sign, at least one
digit, all digits, result within the `int64` range; any violation is an error. -/
def goAtoi (s : String) : Option Int :=
  match s.data with
  | [] => none
  | first :: rest =>
    let signDigits : Bool × List Char :=
      if first = '-' then (true, rest)
      else if first = '+' then (false, rest)
      else (false, first :: rest)
    match signDigits with
    | (neg, ds) =>
      if ds = [] then none
      else
        match digitsToNat ds with
        | none => none
        | some n =>
          let v : Int := if neg then -(n : Int) else (n : Int)
          if v < -(2 ^ 63) ∨ (2 ^ 63 - 1 : Int) < v then none else some v

/-- HomeHandler mirrors handlers.HomeHandler: outside test mode a 1-in-10 draw yields
503 "Service temporarily unavailable"; otherwise 200 with the welcome message. -/
def HomeHandler (testMode : Bool) (roll : Fin 10) (st : RespState) : RespState :=
  if testMode = false ∧ roll.val = 0 then
    errorResponse st 503 "Service temporarily unavailable"
  else
    jsonResponse st 200 (Body.kv [("message", "Welcome to the API")])

/-- HealthCheckHandler mirrors handlers.HealthCheckHandler: always 200 healthy. -/
def HealthCheckHandler (st : RespState) : RespState :=
  jsonResponse st 200 (Body.kv [("status", "healthy")])

/-- GetUsersHandler mirrors handlers.GetUsersHandler: outside test mode a 1-in-5 draw
yields 500; otherwise 200 with the two static users. -/
def GetUsersHandler (testMode : Bool) (roll : Fin 5) (st : RespState) : RespState :=
  if testMode = false ∧ roll.val = 0 then
    errorResponse st 500 "Failed to retrieve users"
  else
    jsonResponse st 200
      (Body.userResp ⟨"success", "", none, [⟨"John Doe", 1⟩, ⟨"Jane Smith", 2⟩]⟩)

/-- processUserData mirrors handlers.processUserData: outside test mode a 1-in-4 draw
fails with a constraint violation (the sleep has no observable effect here). -/
def processUserData (testMode : Bool) (roll : Fin 4) : Option String :=
  if testMode = false ∧ roll.val = 0 then
    some "database constraint violation"
  else
    none

/-- validateAndCreateUser mirrors handlers.validateAndCreateUser: it never reads the
request; outside test mode a 1-in-3 draw fails validation, then processUserData runs
and its failure is wrapped. -/
def validateAndCreateUser (testMode : Bool) (vroll : Fin 3) (proll : Fin 4)
    (_r : Request) : Option String :=
  if testMode = false ∧ vroll.val = 0 then
    some "validation error: required fields missing"
  else
    match processUserData testMode proll with
    | some e => some ("user processing failed: " ++ e)
    | none => none

/-- CreateUserHandler mirrors handlers.CreateUserHandler: empty body gives 400,
a validation or processing error gives 400 with that message, otherwise 201 with the
constant user id 3 named "New User". -/
def CreateUserHandler (testMode : Bool) (vroll : Fin 3) (proll : Fin 4) (r : Request)
    (st : RespState) : RespState :=
  if r.contentLength = 0 then
    errorResponse st 400 "Empty request body"
  else
    match validateAndCreateUser testMode vroll proll r with
    | some errMsg => errorResponse st 400 errMsg
    | none =>
      jsonResponse st 201
        (Body.userResp ⟨"success", "User created successfully", some ⟨"New User", 3⟩, []⟩)

/-- queryDatabase mirrors handlers.queryDatabase: in test mode it always succeeds;
otherwise one 1-in-10 draw gates three id-conditioned simulated failures. -/
def queryDatabase (testMode : Bool) (id : Int) (errorChance : Fin 10) : Option String :=
  if testMode = true then
    none
  else if id % 5 = 0 ∧ errorChance.val < 3 then
    some "connection timeout"
  else if id % 3 = 0 ∧ errorChance.val < 3 then
    some "query execution failed"
  else if 1000 < id ∧ errorChance.val < 2 then
    some "primary key constraint violation"
  else
    none

/-- GetUserHandler mirrors handlers.GetUserHandler: 400 on unparseable or non-positive
id, 500 when queryDatabase fails, a coin-gated 404 for ids over 10 outside test mode,
otherwise 200 with the synthetic user. -/
def GetUserHandler (testMode : Bool) (idStr : String) (errorChance : Fin 10)
    (coin : Fin 2) (st : RespState) : RespState :=
  match goAtoi idStr with
  | none => errorResponse st 400 ("Invalid user ID: " ++ idStr)
  | some id =>
    if id ≤ 0 then
      errorResponse st 400 ("Invalid user ID: " ++ toString id)
    else
      match queryDatabase testMode id errorChance with
      | some _ => errorResponse st 500 "Failed to retrieve user data"
      | none =>
        if testMode = false ∧ 10 < id ∧ coin.val = 0 then
          errorResponse st 404 ("User with ID " ++ toString id ++ " not found")
        else
          jsonResponse st 200
            (Body.userResp ⟨"success", "", some ⟨"User " ++ toString id, id⟩, []⟩)

/-- WrapperState embeds handlers.responseWriter from middleware.go: the wrapped
underlying writer plus the captured statusCode field. -/
structure WrapperState where
  underlying : RespState
  statusCode : Nat
deriving DecidableEq

/-- newResponseWriter mirrors handlers.newResponseWriter: wrap a writer with the
default captured status 200. -/
def newResponseWriter (st : RespState) : WrapperState :=
  ⟨st, 200⟩

/-- WriterOp is one call a handler makes on its response writer: an explicit
WriteHeader, or a body write. -/
inductive WriterOp where
  | writeHeader : Nat → WriterOp
  | writeBody : Body → WriterOp
deriving DecidableEq

/-- applyOp runs one writer call on the wrapper: WriteHeader records the code and
delegates to the underlying writer (responseWriter.WriteHeader in middleware.go);
body writes pass through untouched. -/
def applyOp (rw : WrapperState) : WriterOp → WrapperState
  | WriterOp.writeHeader s =>
    ⟨⟨rw.underlying.contentType, rw.underlying.headerWrites ++ [s], rw.underlying.bodies⟩, s⟩
  | WriterOp.writeBody b =>
    ⟨⟨rw.underlying.contentType, rw.underlying.headerWrites, rw.underlying.bodies ++ [b]⟩,
      rw.statusCode⟩

/-- runOps runs a handler's writer calls on a fresh wrapper over a fresh underlying
writer, as LoggingMiddleware does per request. -/
def runOps (ops : List WriterOp) : WrapperState :=
  ops.foldl applyOp (newResponseWriter RespState.empty)

/-- headerArgs lists the arguments of the WriteHeader calls in order. -/
def headerArgs (ops : List WriterOp) : List Nat :=
  ops.filterMap
    (fun op =>
      match op with
      | WriterOp.writeHeader s => some s
      | WriterOp.writeBody _ => none)

/-- Severity is a slog log level. -/
inductive Severity where
  | debug
  | info
  | warn
  | error
deriving DecidableEq

/-- LogEvent is one structured log record: level, message, and the status attribute
when the record carries one. -/
structure LogEvent where
  severity : Severity
  message : String
  statusAttr : Option Nat
deriving DecidableEq

/-- HandlerResult is the outcome of running a handler: the final writer state and,
when a panic escaped the handler, its fault value. -/
structure HandlerResult where
  state : RespState
  fault : Option String
deriving DecidableEq

/-- GoHandler denotes an http.Handler: from a request and a writer state to a final
state together with an escaping fault, if any. -/
def GoHandler : Type :=
  Request → RespState → HandlerResult

/-- LoggingMiddleware embeds handlers.LoggingMiddleware from middleware.go, the only
middleware main.go applies: it runs the downstream handler on a fresh wrapped writer
and, after the handler returns normally, emits one info record whose status attribute
is the wrapper's captured status (the effective status of the writes made).  The
function contains no deferred recover, so a fault in the downstream handler skips the
log statement and keeps propagating. -/
def LoggingMiddleware (next : GoHandler) (r : Request) : HandlerResult × List LogEvent :=
  let res := next r RespState.empty
  match res.fault with
  | some _ => (res, [])
  | none => (res, [⟨Severity.info, "Request completed", some (statusOf res.state)⟩])

/-- shutdownTimeoutSeconds is the graceful-shutdown deadline main.go passes to
context.WithTimeout: 15 seconds. -/
def shutdownTimeoutSeconds : Nat := 15

/-- shutdownSignals are the signals main.go subscribes to: os.Interrupt (SIGINT)
and syscall.SIGTERM. -/
def shutdownSignals : List String := ["SIGINT", "SIGTERM"]

/-- mainShutdownSequence embeds the tail of main.go after a subscribed signal
arrives: log shutting-down at info, call srv.Shutdown under the 15-second context,
log "Server forced to shutdown" at error severity when Shutdown returns an error
(such as the deadline being exceeded), log exited-properly at info, and exit with
status 0 in every case. -/
def mainShutdownSequence (shutdownErr : Option String) : List LogEvent × Nat :=
  let logs := [(⟨Severity.info, "Server is shutting down...", none⟩ : LogEvent)]
  let logs := logs ++
    match shutdownErr with
    | some _ => [(⟨Severity.error, "Server forced to shutdown", none⟩ : LogEvent)]
    | none => []
  (logs ++ [⟨Severity.info, "Server exited properly", none⟩], 0)

/-- splitOnCharAux splits a character list around each occurrence of the separator,
keeping empty segments, as strings.Split does. -/
def splitOnCharAux (sep : Char) : List Char → List Char → List String
  | [], acc => [String.mk acc.reverse]
  | c :: cs, acc =>
    if c = sep then String.mk acc.reverse :: splitOnCharAux sep cs []
    else splitOnCharAux sep cs (c :: acc)

/-- splitString embeds config.splitString for the one-character separators the config
code uses: empty input gives the empty list, otherwise strings.Split semantics. -/
def splitString (s : String) (sep : Char) : List String :=
  if s = "" then [] else splitOnCharAux sep s.data []

/-- splitAndTrim embeds config.splitAndTrim as written: it splits and drops empty
segments, and despite its name and doc comment it never trims whitespace. -/
def splitAndTrim (s : String) (sep : Char) : List String :=
  (splitString s sep).filter (fun part => part != "")

/-- parseSlice embeds config.parseSlice: empty string gives the empty list, otherwise
splitAndTrim on a comma. -/
def parseSlice (value : String) : List String :=
  if value = "" then [] else splitAndTrim value ','

/-- sliceEnv embeds config.sliceEnv: parse the environment value when the variable is
set, otherwise parse the fallback. -/
def sliceEnv (lookup : Option String) (fallback : String) : List String :=
  match lookup with
  | some value => parseSlice value
  | none => parseSlice fallback

/-- defaultAllowedOrigins is the fallback config.LoadConfig passes for
ALLOWED_ORIGINS. -/
def defaultAllowedOrigins : String :=
  "http://localhost:3000,http://localhost:8080"

/-- goTrimSpace states what strings.TrimSpace would return (ASCII whitespace
suffices for the inputs considered here); the config code never calls it, which is
the defect exhibited below. -/
def goTrimSpace (s : String) : String :=
  String.mk (((s.data.dropWhile Char.isWhitespace).reverse.dropWhile Char.isWhitespace).reverse)

/-- Status of a single JSON response written on a fresh writer. -/
@[simp]
lemma statusOf_jsonResponse_empty (s : Nat) (b : Body) :
    statusOf (jsonResponse RespState.empty s b) = s := rfl

/-- Status of a single error response written on a fresh writer. -/
@[simp]
lemma statusOf_errorResponse_empty (s : Nat) (m : String) :
    statusOf (errorResponse RespState.empty s m) = s := rfl

/-- A concrete GET request used to instantiate proved theorems. -/
def demoGetRequest : Request :=
  ⟨"GET", "/api/users/15", "15", 0, "", "127.0.0.1:54321", "curl/8"⟩

/-- A concrete POST request with a non-empty body. -/
def demoPostRequest : Request :=
  ⟨"POST", "/api/users", "", 19, "not even valid json", "127.0.0.1:54321", "curl/8"⟩

/-- A concrete POST request with a different non-empty body. -/
def demoPostRequest2 : Request :=
  ⟨"POST", "/api/users", "", 15, "another payload", "10.0.0.7:1234", "k6/0.49"⟩

/-- A concrete POST request with an empty body. -/
def demoEmptyPostRequest : Request :=
  ⟨"POST", "/api/users", "", 0, "", "127.0.0.1:54321", "curl/8"⟩

/-- C3: when TestMode is true no fault-injection branch is taken in any handler, so
two runs of the same handler on the same request with arbitrary (different) random
draws produce the same final response state, hence the same status code and body. -/
theorem testMode_handlers_deterministic (r : Request) (st : RespState)
    (a a' : Fin 10) (b b' : Fin 5) (v v' : Fin 3) (p p' : Fin 4)
    (e e' : Fin 10) (c c' : Fin 2) :
    HomeHandler true a st = HomeHandler true a' st ∧
    GetUsersHandler true b st = GetUsersHandler true b' st ∧
    CreateUserHandler true v p r st = CreateUserHandler true v' p' r st ∧
    GetUserHandler true r.pathValueId e c st = GetUserHandler true r.pathValueId e' c' st := by
  refine ⟨by simp [HomeHandler], by simp [GetUsersHandler], ?_, ?_⟩
  · simp [CreateUserHandler, validateAndCreateUser, processUserData]
  · cases hg : goAtoi r.pathValueId with
    | none => simp [GetUserHandler, hg]
    | some id => simp [GetUserHandler, hg, queryDatabase]

/-- C6: a GET /api/users/id request whose id fails to parse or parses non-positive
deterministically yields a 400 error-shaped response, identical in every mode and for
every random draw, before any fault-injection logic runs. -/
theorem getUser_invalid_id_400 (idStr : String)
    (h : goAtoi idStr = none ∨ ∃ id, goAtoi idStr = some id ∧ id ≤ 0)
    (tm tm' : Bool) (ec ec' : Fin 10) (coin coin' : Fin 2) :
    (∃ msg, GetUserHandler tm idStr ec coin RespState.empty
        = errorResponse RespState.empty 400 msg) ∧
    GetUserHandler tm idStr ec coin RespState.empty
      = GetUserHandler tm' idStr ec' coin' RespState.empty := by
  rcases h with h | ⟨id, hid, hle⟩
  · exact ⟨⟨"Invalid user ID: " ++ idStr, by simp [GetUserHandler, h]⟩,
      by simp [GetUserHandler, h]⟩
  · exact ⟨⟨"Invalid user ID: " ++ toString id, by simp [GetUserHandler, hid, hle]⟩,
      by simp [GetUserHandler, hid, hle]⟩

/-- C6 witness: the literal path value "abc" from the spec's example. -/
theorem getUser_invalid_id_400_witness :
    (goAtoi "abc" = none ∨ ∃ id, goAtoi "abc" = some id ∧ id ≤ 0) ∧
    ((∃ msg, GetUserHandler true "abc" 3 0 RespState.empty
        = errorResponse RespState.empty 400 msg) ∧
      GetUserHandler true "abc" 3 0 RespState.empty
        = GetUserHandler false "abc" 7 1 RespState.empty) :=
  ⟨Or.inl (by decide), getUser_invalid_id_400 "abc" (Or.inl (by decide)) true false 3 7 0 1⟩

/-- C7: a POST /api/users request with content length zero deterministically yields
the 400 "Empty request body" error response, in every mode and for every draw. -/
theorem createUser_empty_body_400 (tm : Bool) (v : Fin 3) (p : Fin 4) (r : Request)
    (h : r.contentLength = 0) :
    CreateUserHandler tm v p r RespState.empty
      = errorResponse RespState.empty 400 "Empty request body" := by
  simp [CreateUserHandler, h]

/-- C7 witness: a concrete empty-body POST in non-test mode. -/
theorem createUser_empty_body_400_witness :
    demoEmptyPostRequest.contentLength = 0 ∧
    CreateUserHandler false 0 0 demoEmptyPostRequest RespState.empty
      = errorResponse RespState.empty 400 "Empty request body" :=
  ⟨rfl, createUser_empty_body_400 false 0 0 demoEmptyPostRequest rfl⟩

/-- C8: with TestMode on, every POST /api/users request with a non-empty body gets
status 201, status field "success" and message "User created successfully". -/
theorem createUser_testMode_201 (v : Fin 3) (p : Fin 4) (r : Request)
    (h : r.contentLength ≠ 0) :
    CreateUserHandler true v p r RespState.empty
      = jsonResponse RespState.empty 201
          (Body.userResp ⟨"success", "User created successfully", some ⟨"New User", 3⟩, []⟩) ∧
    statusOf (CreateUserHandler true v p r RespState.empty) = 201 := by
  constructor
  · simp [CreateUserHandler, h, validateAndCreateUser, processUserData]
  · simp [CreateUserHandler, h, validateAndCreateUser, processUserData]

/-- C8 witness: a concrete valid-body POST in test mode. -/
theorem createUser_testMode_201_witness :
    demoPostRequest.contentLength ≠ 0 ∧
    (CreateUserHandler true 0 0 demoPostRequest RespState.empty
        = jsonResponse RespState.empty 201
            (Body.userResp ⟨"success", "User created successfully", some ⟨"New User", 3⟩, []⟩) ∧
      statusOf (CreateUserHandler true 0 0 demoPostRequest RespState.empty) = 201) :=
  ⟨by decide, createUser_testMode_201 0 0 demoPostRequest (by decide)⟩

/-- C10: CreateUserHandler never inspects the body beyond its length: any two
non-empty-body requests produce identical responses in test mode, and whenever a 201
is produced (in any mode) its user is the constant id 3 named "New User". -/
theorem createUser_ignores_body (v v' : Fin 3) (p p' : Fin 4) (r r' : Request)
    (h : r.contentLength ≠ 0) (hr : r'.contentLength ≠ 0) :
    CreateUserHandler true v p r RespState.empty
      = CreateUserHandler true v' p' r' RespState.empty ∧
    (∀ (tm : Bool) (w : Fin 3) (q : Fin 4),
      statusOf (CreateUserHandler tm w q r RespState.empty) = 201 →
      CreateUserHandler tm w q r RespState.empty
        = jsonResponse RespState.empty 201
            (Body.userResp ⟨"success", "User created successfully", some ⟨"New User", 3⟩, []⟩)) := by
  constructor
  · simp [CreateUserHandler, h, hr, validateAndCreateUser, processUserData]
  · intro tm w q hst
    by_cases hc : r.contentLength = 0
    · simp [CreateUserHandler, hc] at hst
    · cases hv : validateAndCreateUser tm w q r with
      | some e => simp [CreateUserHandler, hc, hv] at hst
      | none => simp [CreateUserHandler, hc, hv]

/-- C10 witness: two concrete non-empty bodies, one of them not valid JSON. -/
theorem createUser_ignores_body_witness :
    demoPostRequest.contentLength ≠ 0 ∧ demoPostRequest2.contentLength ≠ 0 ∧
    (CreateUserHandler true 0 0 demoPostRequest RespState.empty
        = CreateUserHandler true 2 3 demoPostRequest2 RespState.empty ∧
      (∀ (tm : Bool) (w : Fin 3) (q : Fin 4),
        statusOf (CreateUserHandler tm w q demoPostRequest RespState.empty) = 201 →
        CreateUserHandler tm w q demoPostRequest RespState.empty
          = jsonResponse RespState.empty 201
              (Body.userResp ⟨"success", "User created successfully", some ⟨"New User", 3⟩, []⟩))) :=
  ⟨by decide, by decide,
    createUser_ignores_body 0 2 0 3 demoPostRequest demoPostRequest2 (by decide) (by decide)⟩

/-- The wrapper's captured status after a run is the argument of the last explicit
WriteHeader call, or the status captured so far when there is none. -/
lemma foldl_applyOp_statusCode (ops : List WriterOp) (rw : WrapperState) :
    (ops.foldl applyOp rw).statusCode = lastWithDefault (headerArgs ops) rw.statusCode := by
  induction ops generalizing rw with
  | nil => rfl
  | cons op rest ih =>
    cases op with
    | writeHeader s => simp [applyOp, headerArgs, lastWithDefault, ih]
    | writeBody b => simp [applyOp, headerArgs, lastWithDefault, ih]

/-- The wrapper delegates every WriteHeader call to the underlying writer, in order. -/
lemma foldl_applyOp_headerWrites (ops : List WriterOp) (rw : WrapperState) :
    (ops.foldl applyOp rw).underlying.headerWrites
      = rw.underlying.headerWrites ++ headerArgs ops := by
  induction ops generalizing rw with
  | nil => simp [headerArgs]
  | cons op rest ih =>
    cases op with
    | writeHeader s => simp [applyOp, headerArgs, ih]
    | writeBody b => simp [applyOp, headerArgs, ih]

/-- A concrete sequence of writer calls used to instantiate the wrapper invariant. -/
def sampleOps : List WriterOp :=
  [WriterOp.writeHeader 404, WriterOp.writeBody (Body.kv [("status", "error")])]

/-- A concrete downstream handler that completes without a fault. -/
def okHandler : GoHandler :=
  fun _ st => ⟨jsonResponse st 200 (Body.kv [("status", "healthy")]), none⟩

/-- C2: for every sequence of writer calls a handler makes, the wrapper's captured
status equals the last WriteHeader argument (200 when none was made) and equals the
effective status written to the underlying writer; and for every handler that returns
normally, the logging middleware logs exactly that effective status. -/
theorem wrapper_status_invariant (ops : List WriterOp) (next : GoHandler) (r : Request)
    (h : (next r RespState.empty).fault = none) :
    (runOps ops).statusCode = lastWithDefault (headerArgs ops) 200 ∧
    (runOps ops).statusCode = statusOf (runOps ops).underlying ∧
    (LoggingMiddleware next r).2
      = [⟨Severity.info, "Request completed", some (statusOf (next r RespState.empty).state)⟩] := by
  refine ⟨foldl_applyOp_statusCode ops (newResponseWriter RespState.empty), ?_, ?_⟩
  · have h2 := foldl_applyOp_headerWrites ops (newResponseWriter RespState.empty)
    unfold runOps
    rw [foldl_applyOp_statusCode ops (newResponseWriter RespState.empty), statusOf, h2]
    rfl
  · simp [LoggingMiddleware, h]

/-- C2 witness: a concrete 404 write sequence and a concrete fault-free handler. -/
theorem wrapper_status_invariant_witness :
    (okHandler demoGetRequest RespState.empty).fault = none ∧
    ((runOps sampleOps).statusCode = lastWithDefault (headerArgs sampleOps) 200 ∧
      (runOps sampleOps).statusCode = statusOf (runOps sampleOps).underlying ∧
      (LoggingMiddleware okHandler demoGetRequest).2
        = [⟨Severity.info, "Request completed",
            some (statusOf (okHandler demoGetRequest RespState.empty).state)⟩]) :=
  ⟨rfl, wrapper_status_invariant sampleOps okHandler demoGetRequest rfl⟩

/-- After a successful parse of a positive id, GetUserHandler reduces to the database
check, the coin-gated not-found branch, and the success response. -/
lemma getUser_parsed (tm : Bool) (idStr : String) (id : Int) (ec : Fin 10) (coin : Fin 2)
    (h : goAtoi idStr = some id) (hpos : 0 < id) :
    GetUserHandler tm idStr ec coin RespState.empty =
      match queryDatabase tm id ec with
      | some _ => errorResponse RespState.empty 500 "Failed to retrieve user data"
      | none =>
        if tm = false ∧ 10 < id ∧ coin.val = 0 then
          errorResponse RespState.empty 404 ("User with ID " ++ toString id ++ " not found")
        else
          jsonResponse RespState.empty 200
            (Body.userResp ⟨"success", "", some ⟨"User " ++ toString id, id⟩, []⟩) := by
  have hle : ¬ id ≤ 0 := by omega
  simp [GetUserHandler, h, hle]

/-- Outside test mode, queryDatabase only fails on an id divisible by 5, divisible
by 3, or greater than 1000. -/
lemma queryDatabase_some_conditions (id : Int) (ec : Fin 10) (e : String)
    (hq : queryDatabase false id ec = some e) :
    id % 5 = 0 ∨ id % 3 = 0 ∨ 1000 < id := by
  unfold queryDatabase at hq
  split_ifs at hq with h1 h2 h3 h4 <;> tauto

/-- C5: for a positive parsed id in non-test mode, a 500 simulated-database-failure
response occurs only when the id is divisible by 5, divisible by 3, or greater than
1000; a 404 occurs only when the id exceeds 10 and the coin draw is 0, which is
exactly one of the two equally likely draws; and when no error branch is taken the
response is 200 with the synthetic user. -/
theorem getUser_fault_injection_conditions (idStr : String) (id : Int) (ec : Fin 10)
    (coin : Fin 2) (h : goAtoi idStr = some id) (hpos : 0 < id) :
    (statusOf (GetUserHandler false idStr ec coin RespState.empty) = 500 →
      id % 5 = 0 ∨ id % 3 = 0 ∨ 1000 < id) ∧
    (statusOf (GetUserHandler false idStr ec coin RespState.empty) = 404 →
      10 < id ∧ coin.val = 0) ∧
    (queryDatabase false id ec = none → 10 < id →
      (Finset.univ.filter
          (fun c : Fin 2 =>
            statusOf (GetUserHandler false idStr ec c RespState.empty) = 404)).card = 1) ∧
    (queryDatabase false id ec = none → ¬(10 < id ∧ coin.val = 0) →
      GetUserHandler false idStr ec coin RespState.empty
        = jsonResponse RespState.empty 200
            (Body.userResp ⟨"success", "", some ⟨"User " ++ toString id, id⟩, []⟩)) := by
  refine ⟨?_, ?_, ?_, ?_⟩
  · intro h500
    rw [getUser_parsed false idStr id ec coin h hpos] at h500
    cases hq : queryDatabase false id ec with
    | some e => exact queryDatabase_some_conditions id ec e hq
    | none =>
      rw [hq] at h500
      by_cases hcond : false = false ∧ 10 < id ∧ coin.val = 0
      · rw [if_pos hcond] at h500
        simp at h500
      · rw [if_neg hcond] at h500
        simp at h500
  · intro h404
    rw [getUser_parsed false idStr id ec coin h hpos] at h404
    cases hq : queryDatabase false id ec with
    | some e =>
      rw [hq] at h404
      simp at h404
    | none =>
      rw [hq] at h404
      by_cases hcond : false = false ∧ 10 < id ∧ coin.val = 0
      · exact hcond.2
      · rw [if_neg hcond] at h404
        simp at h404
  · intro hq h10
    have key : ∀ c : Fin 2,
        statusOf (GetUserHandler false idStr ec c RespState.empty) = 404 ↔ c = 0 := by
      intro c
      rw [getUser_parsed false idStr id ec c h hpos, hq]
      fin_cases c
      · simp [h10]
      · simp [h10]
    have hfil :
        (Finset.univ.filter
            (fun c : Fin 2 =>
              statusOf (GetUserHandler false idStr ec c RespState.empty) = 404))
          = ({0} : Finset (Fin 2)) := by
      ext c
      simp [key c]
    rw [hfil]
    rfl
  · intro hq hn
    rw [getUser_parsed false idStr id ec coin h hpos, hq]
    have hcond : ¬(false = false ∧ 10 < id ∧ coin.val = 0) := fun hc => hn hc.2
    rw [if_neg hcond]

/-- C5 witness: id 15 (positive, parseable) with a concrete non-erroring draw. -/
theorem getUser_fault_injection_conditions_witness :
    goAtoi "15" = some 15 ∧ (0 : Int) < 15 ∧
    ((statusOf (GetUserHandler false "15" 7 1 RespState.empty) = 500 →
        (15 : Int) % 5 = 0 ∨ (15 : Int) % 3 = 0 ∨ (1000 : Int) < 15) ∧
      (statusOf (GetUserHandler false "15" 7 1 RespState.empty) = 404 →
        (10 : Int) < 15 ∧ (1 : Fin 2).val = 0) ∧
      (queryDatabase false 15 7 = none → (10 : Int) < 15 →
        (Finset.univ.filter
            (fun c : Fin 2 =>
              statusOf (GetUserHandler false "15" 7 c RespState.empty) = 404)).card = 1) ∧
      (queryDatabase false 15 7 = none → ¬((10 : Int) < 15 ∧ (1 : Fin 2).val = 0) →
        GetUserHandler false "15" 7 1 RespState.empty
          = jsonResponse RespState.empty 200
              (Body.userResp ⟨"success", "", some ⟨"User " ++ toString (15 : Int), 15⟩, []⟩))) :=
  ⟨by decide, by decide,
    getUser_fault_injection_conditions "15" 15 7 1 (by decide) (by decide)⟩

/-- A concrete handler whose execution raises an unrecovered fault immediately. -/
def faultingHandler : GoHandler :=
  fun _ _ => ⟨RespState.empty, some "boom"⟩

/-- C1 counterexample: main.go applies only LoggingMiddleware, which contains no
recover.  Running the applied chain on a concrete request whose handler faults, the
fault escapes the chain, no status (in particular no 500) is written, and no log
record is emitted — contrary to the claimed one-500-response-and-containment
behavior. -/
theorem logging_chain_fault_counterexample :
    (LoggingMiddleware faultingHandler demoGetRequest).1.fault = some "boom" ∧
    (LoggingMiddleware faultingHandler demoGetRequest).1.state.headerWrites = [] ∧
    (LoggingMiddleware faultingHandler demoGetRequest).2 = [] :=
  ⟨rfl, rfl, rfl⟩

/-- C1 amended: the repository's applied middleware chain has no recovery region;
whenever the downstream handler raises an unrecovered fault, the chain returns the
handler's state and fault unchanged — the fault keeps propagating, no additional
response (no 500) is written by the repository's code, and no request log is
emitted. -/
theorem logging_chain_no_recovery (next : GoHandler) (r : Request) (pv : String)
    (h : (next r RespState.empty).fault = some pv) :
    (LoggingMiddleware next r).1 = next r RespState.empty ∧
    (LoggingMiddleware next r).2 = [] := by
  constructor <;> simp [LoggingMiddleware, h]

/-- C1 witness: the amended theorem at the concrete faulting handler and request. -/
theorem logging_chain_no_recovery_witness :
    (faultingHandler demoGetRequest RespState.empty).fault = some "boom" ∧
    ((LoggingMiddleware faultingHandler demoGetRequest).1
        = faultingHandler demoGetRequest RespState.empty ∧
      (LoggingMiddleware faultingHandler demoGetRequest).2 = []) :=
  ⟨rfl, logging_chain_no_recovery faultingHandler demoGetRequest "boom" rfl⟩

/-- C4 counterexample: on the shutdown-deadline-exceeded path, main.go emits no
warn-severity record at all (the overrun message is logged at error severity), so the
claim's "a warning is logged" fails at this concrete input. -/
theorem shutdown_overrun_counterexample :
    ((mainShutdownSequence (some "context deadline exceeded")).1.filter
        (fun e => decide (e.severity = Severity.warn))) = [] ∧
    ((mainShutdownSequence (some "context deadline exceeded")).1.filter
        (fun e => decide (e.severity = Severity.error)))
      = [⟨Severity.error, "Server forced to shutdown", none⟩] ∧
    (mainShutdownSequence (some "context deadline exceeded")).2 = 0 := by
  refine ⟨by decide, by decide, by decide⟩

/-- C4 amended: SIGINT and SIGTERM trigger shutdown with a deadline of exactly 15
seconds; when Shutdown returns an error (deadline exceeded), "Server forced to
shutdown" is logged at error severity (not as a warning), the overrun is not fatal,
and the process still exits with status zero. -/
theorem shutdown_overrun_error_nonfatal (err : Option String) (msg : String)
    (h : err = some msg) :
    shutdownTimeoutSeconds = 15 ∧
    shutdownSignals = ["SIGINT", "SIGTERM"] ∧
    (mainShutdownSequence err).2 = 0 ∧
    (⟨Severity.error, "Server forced to shutdown", none⟩ : LogEvent)
      ∈ (mainShutdownSequence err).1 := by
  subst h
  refine ⟨rfl, rfl, rfl, ?_⟩
  simp [mainShutdownSequence]

/-- C4 witness: the amended theorem at the concrete deadline-exceeded error. -/
theorem shutdown_overrun_error_nonfatal_witness :
    (some "context deadline exceeded" : Option String) = some "context deadline exceeded" ∧
    (shutdownTimeoutSeconds = 15 ∧
      shutdownSignals = ["SIGINT", "SIGTERM"] ∧
      (mainShutdownSequence (some "context deadline exceeded")).2 = 0 ∧
      (⟨Severity.error, "Server forced to shutdown", none⟩ : LogEvent)
        ∈ (mainShutdownSequence (some "context deadline exceeded")).1) :=
  ⟨rfl, shutdown_overrun_error_nonfatal (some "context deadline exceeded")
    "context deadline exceeded" rfl⟩

/-- C9: evaluation of the config loader as written.  With ALLOWED_ORIGINS set to a
value containing a space after the comma, the second returned element keeps its
leading space — the segments are split and empty ones dropped, but nothing is
trimmed, although splitAndTrim's own doc comment promises trimming.  The unset
default (which happens to contain no spaces) does return the two localhost
origins. -/
theorem sliceEnv_does_not_trim :
    sliceEnv (some "http://localhost:3000, http://localhost:8080") defaultAllowedOrigins
      = ["http://localhost:3000", " http://localhost:8080"] ∧
    goTrimSpace " http://localhost:8080" = "http://localhost:8080" ∧
    (" http://localhost:8080" : String) ≠ "http://localhost:8080" ∧
    sliceEnv none defaultAllowedOrigins
      = ["http://localhost:3000", "http://localhost:8080"] := by
  refine ⟨by decide, by decide, by decide, by decide⟩

end DemoWebService
